import Mathlib

/-!
Verification development for the trust, consensus and coordination layer of
the ProjectCollatz repository.  The Python sources are embedded shallowly:
dictionaries become association lists, floats become rationals, external
effects (wall clock, logarithm, SHA-256, Ed25519) become oracle parameters
gathered in environment records.  All definitions follow the Python source
line by line; theorems at the end settle the behavioural claims.
-/

/-- Association-list lookup, mirroring Python dict access `m[k]` / `k in m`. -/
def lookupKV {K V : Type} [DecidableEq K] : List (K × V) → K → Option V
  | [], _ => none
  | (k', v) :: rest, k => if k = k' then some v else lookupKV rest k

/-- Association-list insert / replace, mirroring Python dict assignment `m[k] = v`. -/
def insertKV {K V : Type} [DecidableEq K] : List (K × V) → K → V → List (K × V)
  | [], k, v => [(k, v)]
  | (k', v') :: rest, k, v =>
      if k = k' then (k, v) :: rest else (k', v') :: insertKV rest k v

/-- Association-list delete, mirroring Python `del m[k]`. -/
def eraseKV {K V : Type} [DecidableEq K] : List (K × V) → K → List (K × V)
  | [], _ => []
  | (k', v') :: rest, k => if k = k' then rest else (k', v') :: eraseKV rest k

/-- Update the value at a key when present, mirroring in-place mutation of a
dict entry in Python; a missing key leaves the map unchanged. -/
def updateKV {K V : Type} [DecidableEq K] (m : List (K × V)) (k : K) (f : V → V) :
    List (K × V) :=
  match lookupKV m k with
  | some v => insertKV m k (f v)
  | none => m

/-- Oracle environment: the wall clock and the real-valued library functions used
by the Python code (`time.time()`, `math.log10`, `0.95 ** x`). -/
structure Env where
  now : ℚ
  log10 : ℚ → ℚ
  powDecay : ℚ → ℚ

/-- `TrustLevel` enum from trust_system.py. -/
inductive TrustLevel where
  | UNTRUSTED
  | VERIFIED
  | TRUSTED
  | ELITE
  | BANNED
deriving DecidableEq, Repr

/-- The integer value each enum member carries in the Python source
(UNTRUSTED=0, VERIFIED=1, TRUSTED=2, ELITE=3, BANNED=-1); it is the implicit
rank order of the tiers. -/
def tierRank : TrustLevel → Int
  | .UNTRUSTED => 0
  | .VERIFIED => 1
  | .TRUSTED => 2
  | .ELITE => 3
  | .BANNED => -1

/-- `WorkerStats` dataclass from trust_system.py. -/
structure WorkerStats where
  worker_id : String
  total_verifications : Nat
  correct_verifications : Nat
  incorrect_verifications : Nat
  total_numbers_checked : Int
  total_compute_time : ℚ
  trust_level : TrustLevel
  reputation_score : ℚ
  first_seen : ℚ
  last_active : ℚ
  consecutive_correct : Nat
  consecutive_incorrect : Nat
deriving DecidableEq, Repr

/-- Fresh `WorkerStats` with the dataclass defaults and post-init timestamps. -/
def freshWorkerStats (env : Env) (wid : String) : WorkerStats :=
  { worker_id := wid
    total_verifications := 0
    correct_verifications := 0
    incorrect_verifications := 0
    total_numbers_checked := 0
    total_compute_time := 0
    trust_level := .UNTRUSTED
    reputation_score := 0
    first_seen := env.now
    last_active := env.now
    consecutive_correct := 0
    consecutive_incorrect := 0 }

/-- `VerificationResult` dataclass from trust_system.py. -/
structure VerificationResult where
  worker_id : String
  range_start : Int
  range_end : Int
  all_converged : Bool
  numbers_checked : Int
  compute_time : ℚ
  timestamp : ℚ
  signature : String
  proof_cid : String
deriving DecidableEq, Repr

/-- `ConsensusState` dataclass from trust_system.py. -/
structure ConsensusState where
  range_start : Int
  range_end : Int
  required_confirmations : Nat
  confirmations : List VerificationResult
  consensus_reached : Bool
  consensus_result : Option Bool
  conflicting_results : List VerificationResult
deriving DecidableEq, Repr

/-- Mutable state of `TrustSystem`: the worker table and the pending consensus
table keyed by `(range_start, range_end)`. -/
structure TrustState where
  workers : List (String × WorkerStats)
  pending_consensus : List ((Int × Int) × ConsensusState)
deriving DecidableEq, Repr

/-- `TrustSystem.CONSENSUS_REQUIREMENTS` table. -/
def consensusRequirements : TrustLevel → Nat
  | .UNTRUSTED => 5
  | .VERIFIED => 3
  | .TRUSTED => 2
  | .ELITE => 1
  | .BANNED => 999

/-- `TrustSystem.calculate_reputation`.  The float expressions become exact
rationals; `math.log10` and the decay power `0.95 ** months` are taken from
the oracle environment. -/
def calculate_reputation (env : Env) (stats : WorkerStats) : ℚ :=
  if stats.total_verifications = 0 then 0
  else
    let accuracy : ℚ :=
      (stats.correct_verifications : ℚ) / (stats.total_verifications : ℚ)
    let base_score := accuracy * 100
    let volume_bonus := min 20 (env.log10 ((stats.total_verifications : ℚ) + 1) * 5)
    let error_penalty := min 30 ((stats.consecutive_incorrect : ℚ) * 10)
    let consistency_bonus := min 15 ((stats.consecutive_correct : ℚ) * (5 / 10))
    let days_inactive := (env.now - stats.last_active) / 86400
    let decay_multiplier :=
      if days_inactive > 30 then env.powDecay ((days_inactive - 30) / 30) else 1
    let reputation :=
      (base_score + volume_bonus + consistency_bonus - error_penalty) * decay_multiplier
    max 0 (min 100 reputation)

/-- `TrustSystem.update_trust_level`: ban check first (dominant), then the
promotion ladder; banned workers stay banned. -/
def update_trust_level (stats : WorkerStats) : WorkerStats :=
  if stats.trust_level = .BANNED then stats
  else if stats.total_verifications ≥ 20 ∧
      ((stats.incorrect_verifications : ℚ) / (stats.total_verifications : ℚ) > 10 / 100 ∨
        stats.consecutive_incorrect ≥ 3) then
    { stats with trust_level := .BANNED }
  else if stats.correct_verifications ≥ 1000 ∧ stats.incorrect_verifications = 0 then
    { stats with trust_level := .ELITE }
  else if stats.correct_verifications ≥ 100 then
    { stats with trust_level := .TRUSTED }
  else if stats.correct_verifications ≥ 10 then
    { stats with trust_level := .VERIFIED }
  else stats

/-- Countermeasure 3 of `TrustSystem.apply_byzantine_countermeasures`
(build/lib/trust_system.py): a worker of a user flagged for a coordinated
attack is demoted to VERIFIED when its level is TRUSTED or ELITE and it is
not banned. -/
def byzantine_demote (stats : WorkerStats) : WorkerStats :=
  if stats.trust_level ≠ .BANNED ∧
      (stats.trust_level = .TRUSTED ∨ stats.trust_level = .ELITE) then
    { stats with trust_level := .VERIFIED }
  else stats

/-- The per-confirmer update performed when consensus is reached inside
`TrustSystem.submit_verification`: correct counter and streak bump, then
reputation recomputation, then trust-level update. -/
def rewardWorker (env : Env) (w : WorkerStats) : WorkerStats :=
  let w1 := { w with
    correct_verifications := w.correct_verifications + 1
    consecutive_correct := w.consecutive_correct + 1
    consecutive_incorrect := 0 }
  let w2 := { w1 with reputation_score := calculate_reputation env w1 }
  update_trust_level w2

/-- `len(set(results)) == 1` on a list of booleans: nonempty and all equal. -/
def uniqueResults : List Bool → Bool
  | [] => false
  | b :: bs => bs.all (· == b)

/-- `TrustSystem.submit_verification`: registers the worker, bumps its
activity counters, creates or fetches the consensus state for the range,
rejects duplicate submissions by the same worker, and otherwise records the
confirmation and decides resolution or conflict escalation. -/
def submit_verification (env : Env) (st : TrustState) (result : VerificationResult) :
    TrustState × Bool × String :=
  let stats0 := (lookupKV st.workers result.worker_id).getD
    (freshWorkerStats env result.worker_id)
  let stats1 := { stats0 with
    last_active := result.timestamp
    total_verifications := stats0.total_verifications + 1
    total_numbers_checked := stats0.total_numbers_checked + result.numbers_checked
    total_compute_time := stats0.total_compute_time + result.compute_time }
  let workers1 := insertKV st.workers result.worker_id stats1
  let key := (result.range_start, result.range_end)
  let (cs, pendingBase) :=
    match lookupKV st.pending_consensus key with
    | some cs => (cs, st.pending_consensus)
    | none =>
        let fresh : ConsensusState :=
          { range_start := result.range_start
            range_end := result.range_end
            required_confirmations := consensusRequirements stats1.trust_level
            confirmations := []
            consensus_reached := false
            consensus_result := none
            conflicting_results := [] }
        (fresh, insertKV st.pending_consensus key fresh)
  if result.worker_id ∈ cs.confirmations.map (·.worker_id) then
    ({ workers := workers1, pending_consensus := pendingBase }, false,
      "Worker already submitted verification for this range")
  else
    let confs := cs.confirmations ++ [result]
    if confs.length ≥ cs.required_confirmations then
      if uniqueResults (confs.map (·.all_converged)) then
        let cs' := { cs with
          confirmations := confs
          consensus_reached := true
          consensus_result := some ((confs.headD result).all_converged) }
        let workers2 := confs.foldl
          (fun ws c => updateKV ws c.worker_id (rewardWorker env)) workers1
        ({ workers := workers2, pending_consensus := insertKV pendingBase key cs' },
          true, "Consensus reached")
      else
        let cs' := { cs with
          confirmations := confs
          conflicting_results := confs
          required_confirmations := cs.required_confirmations + 3 }
        ({ workers := workers1, pending_consensus := insertKV pendingBase key cs' },
          false, "CONFLICT: Workers disagree")
    else
      let cs' := { cs with confirmations := confs }
      ({ workers := workers1, pending_consensus := insertKV pendingBase key cs' },
        false, "Verification submitted")

/-- A worker's incorrect-verification count in a trust state, 0 if unknown. -/
def workerIncorrect (st : TrustState) (w : String) : Nat :=
  ((lookupKV st.workers w).map (·.incorrect_verifications)).getD 0

/-- A worker's consecutive-incorrect streak in a trust state, 0 if unknown. -/
def workerConsecIncorrect (st : TrustState) (w : String) : Nat :=
  ((lookupKV st.workers w).map (·.consecutive_incorrect)).getD 0

/-- A worker's trust tier in a trust state, UNTRUSTED if unknown (a worker is
registered UNTRUSTED on first contact). -/
def workerLevel (st : TrustState) (w : String) : TrustLevel :=
  ((lookupKV st.workers w).map (·.trust_level)).getD .UNTRUSTED

/-- A worker's total-verification count in a trust state, 0 if unknown. -/
def workerTotal (st : TrustState) (w : String) : Nat :=
  ((lookupKV st.workers w).map (·.total_verifications)).getD 0

/-- `SignedProof` dataclass from build/lib/proof_verification.py. -/
structure SignedProof where
  worker_id : String
  range_start : Int
  range_end : Int
  all_converged : Bool
  numbers_checked : Int
  max_steps : Int
  compute_time : ℚ
  timestamp : ℚ
  ipfs_cid : String
  public_key_pem : String
  signature_hex : String
  proof_hash : String
deriving DecidableEq, Repr

/-- The nine signed fields of a proof, the input of the canonical hash. -/
structure ProofData where
  worker_id : String
  range_start : Int
  range_end : Int
  all_converged : Bool
  numbers_checked : Int
  max_steps : Int
  compute_time : ℚ
  timestamp : ℚ
  ipfs_cid : String
deriving DecidableEq, Repr

/-- The proof data re-assembled from a `SignedProof` as in
`ProofVerificationSystem.validate_proof`. -/
def proofDataOf (p : SignedProof) : ProofData :=
  { worker_id := p.worker_id
    range_start := p.range_start
    range_end := p.range_end
    all_converged := p.all_converged
    numbers_checked := p.numbers_checked
    max_steps := p.max_steps
    compute_time := p.compute_time
    timestamp := p.timestamp
    ipfs_cid := p.ipfs_cid }

/-- Oracles for the cryptographic externals of proof_verification.py:
Ed25519 signature verification and the SHA-256 canonical hash. -/
structure PVEnv where
  sigOk : SignedProof → Bool
  hashFn : ProofData → String

/-- State of `ProofVerificationSystem`: the shared trust system plus the
pending cross-check table keyed by range. -/
structure PVState where
  trust : TrustState
  pending_cross_checks : List ((Int × Int) × List SignedProof)
deriving DecidableEq, Repr

/-- `ProofVerificationSystem.validate_proof`: signature, hash, timestamp
window, range sanity and numbers-checked plausibility, in source order. -/
def validate_proof (penv : PVEnv) (env : Env) (p : SignedProof) : Bool × String :=
  if ¬ (penv.sigOk p = true) then
    (false, "Invalid cryptographic signature")
  else if penv.hashFn (proofDataOf p) ≠ p.proof_hash then
    (false, "Proof hash mismatch (data tampering detected)")
  else if p.timestamp > env.now + 300 then
    (false, "Timestamp is in the future")
  else if env.now - p.timestamp > 86400 * 7 then
    (false, "Proof is too old (stale)")
  else if p.range_start ≥ p.range_end then
    (false, "Invalid range (start >= end)")
  else if p.range_start < 0 then
    (false, "Invalid range (negative start)")
  else
    let expected_checked := (p.range_end - p.range_start) / 2
    if |(p.numbers_checked : ℚ) - (expected_checked : ℚ)| >
        (expected_checked : ℚ) * (10 / 100) then
      (false, "Numbers checked does not match range")
    else
      (true, "Proof is valid")

/-- `ProofVerificationSystem.submit_for_consensus`: validate, on failure ban
an already-registered submitter, on success forward the result to
`submit_verification` and record the proof for cross-checking. -/
def submit_for_consensus (penv : PVEnv) (env : Env) (st : PVState) (p : SignedProof) :
    PVState × Bool × String :=
  let v := validate_proof penv env p
  if v.1 = false then
    let trust' :=
      match lookupKV st.trust.workers p.worker_id with
      | some s =>
          { st.trust with
            workers := insertKV st.trust.workers p.worker_id
              { s with trust_level := .BANNED } }
      | none => st.trust
    ({ st with trust := trust' }, false, "Proof validation failed")
  else
    let verification : VerificationResult :=
      { worker_id := p.worker_id
        range_start := p.range_start
        range_end := p.range_end
        all_converged := p.all_converged
        numbers_checked := p.numbers_checked
        compute_time := p.compute_time
        timestamp := p.timestamp
        signature := p.signature_hex
        proof_cid := p.ipfs_cid }
    let out := submit_verification env st.trust verification
    let range_key := (p.range_start, p.range_end)
    let prior := (lookupKV st.pending_cross_checks range_key).getD []
    ({ trust := out.1
       pending_cross_checks := insertKV st.pending_cross_checks range_key (prior ++ [p]) },
      out.2.1, out.2.2)

/-- `WorkAssignment` dataclass from ipfs_coordinator.py. -/
structure WorkAssignment where
  assignment_id : String
  range_start : Int
  range_end : Int
  redundancy_factor : Nat
  assigned_workers : List String
  completed_workers : List String
  status : String
  created_at : ℚ
  timeout_at : ℚ
  priority : Int
  creator_user_id : Option String
deriving DecidableEq, Repr

/-- `VerificationProof` dataclass from ipfs_coordinator.py. -/
structure VerificationProof where
  proof_id : String
  worker_id : String
  assignment_id : String
  range_start : Int
  range_end : Int
  all_converged : Bool
  numbers_checked : Int
  max_steps : Int
  compute_time : ℚ
  timestamp : ℚ
  ipfs_cid : String
  signature : String
deriving DecidableEq, Repr

/-- `IPFSCoordinator.RANGE_SIZE` (10 billion numbers per assignment). -/
def RANGE_SIZE : Int := 10000000000

/-- The replicated local state of `IPFSCoordinator` relevant to merging and
progress validation. -/
structure CoordState where
  work_assignments : List (String × WorkAssignment)
  verification_proofs : List (String × VerificationProof)
  global_highest_proven : Int
deriving DecidableEq, Repr

/-- Gap-scanning loop of `IPFSCoordinator._validate_continuous_coverage`:
walk the start-sorted completed assignments, fail on a gap larger than 10% of
one range width, succeed when the end is covered. -/
def coverLoop (endv : Int) : Int → List WorkAssignment → Bool
  | pos, [] => pos ≥ endv
  | pos, a :: rest =>
      if a.range_start > pos ∧ 10 * (a.range_start - pos) > RANGE_SIZE then false
      else coverLoop endv (max pos a.range_end) rest

/-- `IPFSCoordinator._validate_continuous_coverage`. -/
def validate_continuous_coverage (st : CoordState) (start endv : Int) : Bool :=
  if start ≥ endv then true
  else
    let relevant := List.insertionSort (fun a b => a.range_start ≤ b.range_start)
      ((st.work_assignments.map Prod.snd).filter
        (fun a => a.status = "completed" ∧ a.range_start ≥ start ∧ a.range_end ≤ endv))
    if relevant = [] then false
    else coverLoop endv start relevant

/-- `IPFSCoordinator._has_sufficient_completed_work_for_progress`. -/
def has_sufficient_completed_work_for_progress (env : Env) (st : CoordState)
    (progress : Int) : Bool :=
  let current_highest := st.global_highest_proven
  if ¬ (validate_continuous_coverage st current_highest progress = true) then false
  else
    let verified_ranges := (st.work_assignments.map Prod.snd).filter
      (fun a => a.status = "completed" ∧ a.range_start ≥ current_highest ∧
        a.range_end ≤ progress)
    if verified_ranges = [] then false
    else if verified_ranges.any (fun a => a.completed_workers.length < 2) then false
    else
      let total_coverage := (verified_ranges.map (fun a => a.range_end - a.range_start)).sum
      let expected_coverage := progress - current_highest
      let coverage_frac : ℚ :=
        if expected_coverage > 0 then (total_coverage : ℚ) / (expected_coverage : ℚ) else 0
      if coverage_frac < 95 / 100 then false
      else
        let recent_cutoff := env.now - 3600
        let recent_verifications := (verified_ranges.filter
          (fun a => (st.verification_proofs.map Prod.snd).any
            (fun pr => pr.assignment_id = a.assignment_id ∧ pr.timestamp > recent_cutoff))).length
        if recent_verifications = 0 ∧ verified_ranges.length > 0 then false
        else true

/-- `IPFSCoordinator._validate_peer_progress_claim`: backward-movement bound,
forward-jump bound, completed-work validation, small-increment allowance. -/
def validate_peer_progress_claim (env : Env) (st : CoordState) (claimed : Int) : Bool :=
  if (claimed : ℚ) < (st.global_highest_proven : ℚ) * (99 / 100) then false
  else if claimed > st.global_highest_proven + RANGE_SIZE * 100 then false
  else if has_sufficient_completed_work_for_progress env st claimed then true
  else if claimed ≤ st.global_highest_proven + RANGE_SIZE * 10 then true
  else false

/-- The `global_highest_proven` step of `IPFSCoordinator.merge_peer_state`:
a higher peer value is taken only after validation. -/
def mergeHighest (env : Env) (st : CoordState) (peer_highest : Int) : CoordState :=
  if peer_highest > st.global_highest_proven ∧
      validate_peer_progress_claim env st peer_highest = true then
    { st with global_highest_proven := peer_highest }
  else st

/-- One assignment of the union-merge in `IPFSCoordinator.merge_peer_state`:
new ids are added, an existing id is replaced only by a strictly more complete
copy. -/
def mergeAssignment (m : List (String × WorkAssignment)) (a : WorkAssignment) :
    List (String × WorkAssignment) :=
  match lookupKV m a.assignment_id with
  | none => insertKV m a.assignment_id a
  | some existing =>
      if a.completed_workers.length > existing.completed_workers.length then
        insertKV m a.assignment_id a
      else m

/-- One proof of the union-merge in `IPFSCoordinator.merge_peer_state`:
proofs are unioned by id, never replaced. -/
def mergeProof (m : List (String × VerificationProof)) (p : VerificationProof) :
    List (String × VerificationProof) :=
  match lookupKV m p.proof_id with
  | none => insertKV m p.proof_id p
  | some _ => m

/-- A decoded peer snapshot as consumed by `merge_peer_state`. -/
structure PeerState where
  work_assignments : List WorkAssignment
  verification_proofs : List VerificationProof
  global_highest_proven : Int
deriving DecidableEq, Repr

/-- `IPFSCoordinator.merge_peer_state` (the pure merge over a decoded peer
snapshot): union assignments preferring the more complete copy, union proofs
by id, then the validated frontier step. -/
def merge_peer_state (env : Env) (st : CoordState) (peer : PeerState) : CoordState :=
  let st1 := { st with
    work_assignments := peer.work_assignments.foldl mergeAssignment st.work_assignments }
  let st2 := { st1 with
    verification_proofs := peer.verification_proofs.foldl mergeProof st1.verification_proofs }
  mergeHighest env st2 peer.global_highest_proven

/-- An `available_workers` entry of `IPFSCoordinator`. -/
structure AvailEntry where
  timestamp : ℚ
  user_id : Option String
deriving DecidableEq, Repr

/-- The `IPFSCoordinator` state touched by `register_worker_availability`. -/
structure AvailState where
  available_workers : List (String × AvailEntry)
  worker_assignments : List (String × String)
  work_assignments : List (String × WorkAssignment)
deriving DecidableEq, Repr

/-- Eviction of one stale worker `wid` inside
`IPFSCoordinator.register_worker_availability`.  Faithful to the source,
including its use of the REGISTERING worker id (not `wid`) in the
`assigned_workers` removal. -/
def evictStale (registrant : String) (st : AvailState) (wid : String) : AvailState :=
  let st1 := { st with available_workers := eraseKV st.available_workers wid }
  match lookupKV st1.worker_assignments wid with
  | none => st1
  | some assignment_id =>
      match lookupKV st1.work_assignments assignment_id with
      | none => { st1 with worker_assignments := eraseKV st1.worker_assignments wid }
      | some a =>
          let a1 := if registrant ∈ a.assigned_workers then
              { a with assigned_workers := a.assigned_workers.erase registrant }
            else a
          let a2 := { a1 with status := "available" }
          { st1 with
            work_assignments := insertKV st1.work_assignments assignment_id a2
            worker_assignments := eraseKV st1.worker_assignments wid }

/-- `IPFSCoordinator.register_worker_availability`: record the heartbeat,
then evict every entry staler than 5 minutes and free its claim. -/
def register_worker_availability (env : Env) (st : AvailState) (worker_id : String)
    (user_id : Option String) : AvailState :=
  let avail1 := insertKV st.available_workers worker_id
    { timestamp := env.now, user_id := user_id }
  let stale_workers := (avail1.filter (fun kv => env.now - kv.2.timestamp > 300)).map Prod.fst
  stale_workers.foldl (evictStale worker_id) { st with available_workers := avail1 }

/-- A proof dict as passed to
`CounterexampleCoordinator.check_for_counterexample`; `user_id` is optional
because the producing dataclass has no such key (`dict.get` default). -/
structure CEProof where
  worker_id : String
  user_id : Option String
  range_start : Int
  range_end : Int
  all_converged : Bool
  timestamp : ℚ
  ipfs_cid : String
deriving DecidableEq, Repr

/-- `CounterexampleData` dataclass from counterexample_handler.py. -/
structure CounterexampleData where
  counterexample_number : Int
  discovered_by_worker : String
  discovered_by_user : String
  discovered_at : ℚ
  first_verifiers : List (String × String)
  verification_count : Nat
  range_start : Int
  range_end : Int
  assignment_id : String
  ipfs_proof_cid : String
  consensus_reached_at : ℚ
deriving DecidableEq, Repr

/-- `CounterexampleCoordinator.check_for_counterexample`: keep the
non-convergent proofs, require at least three, stably sort them by timestamp
and build the record from the first three. -/
def check_for_counterexample (env : Env) (assignment_id : String)
    (proofs : List CEProof) : Option CounterexampleData :=
  let counterexample_proofs := proofs.filter (fun p => ! p.all_converged)
  if counterexample_proofs.length < 3 then none
  else
    match List.insertionSort (fun a b => a.timestamp ≤ b.timestamp)
        counterexample_proofs with
    | p0 :: p1 :: p2 :: _ =>
        some
          { counterexample_number := p0.range_start
            discovered_by_worker := p0.worker_id
            discovered_by_user := p0.user_id.getD "anonymous"
            discovered_at := p0.timestamp
            first_verifiers :=
              [(p1.worker_id, p1.user_id.getD "anonymous"),
                (p2.worker_id, p2.user_id.getD "anonymous")]
            verification_count := counterexample_proofs.length
            range_start := p0.range_start
            range_end := p0.range_end
            assignment_id := assignment_id
            ipfs_proof_cid := p0.ipfs_cid
            consensus_reached_at := env.now }
    | _ => none

/-- Concrete oracle environment used by the evaluation theorems. -/
def env0 : Env := { now := 0, log10 := fun _ => 0, powDecay := fun _ => 1 }

/-- Concrete environment with the clock at t = 1000. -/
def envT1000 : Env := { now := 1000, log10 := fun _ => 0, powDecay := fun _ => 1 }

/-- Concrete stats of an elite worker that has since recorded one incorrect
verification (error rate 1/1001, streak 1: below every ban threshold). -/
def eliteSlipStats : WorkerStats :=
  { worker_id := "e"
    total_verifications := 1001
    correct_verifications := 1000
    incorrect_verifications := 1
    total_numbers_checked := 0
    total_compute_time := 0
    trust_level := .ELITE
    reputation_score := 0
    first_seen := 0
    last_active := 0
    consecutive_correct := 0
    consecutive_incorrect := 1 }

/-- Concrete stats of a banned worker (25 verifications, 4 incorrect). -/
def bannedStats : WorkerStats :=
  { worker_id := "wB"
    total_verifications := 25
    correct_verifications := 21
    incorrect_verifications := 4
    total_numbers_checked := 0
    total_compute_time := 0
    trust_level := .BANNED
    reputation_score := 0
    first_seen := 0
    last_active := 0
    consecutive_correct := 0
    consecutive_incorrect := 0 }

/-- Concrete in-progress assignment held by stale worker w1. -/
def staleAsg : WorkAssignment :=
  { assignment_id := "a1"
    range_start := 0
    range_end := 100
    redundancy_factor := 3
    assigned_workers := ["w1"]
    completed_workers := []
    status := "in_progress"
    created_at := 0
    timeout_at := 3600
    priority := 1
    creator_user_id := none }

/-- Concrete coordinator state: worker w1 heartbeated at t = 0 and holds a1. -/
def staleState : AvailState :=
  { available_workers := [("w1", { timestamp := 0, user_id := none })]
    worker_assignments := [("w1", "a1")]
    work_assignments := [("a1", staleAsg)] }

/-- Concrete verification result used by the resubmission evaluation. -/
def r0 : VerificationResult :=
  { worker_id := "w"
    range_start := 1
    range_end := 1001
    all_converged := true
    numbers_checked := 500
    compute_time := 1
    timestamp := 5
    signature := "s"
    proof_cid := "c" }

/-- Empty trust state. -/
def st0 : TrustState := { workers := [], pending_consensus := [] }

/-- Trust state after the first submission of `r0`. -/
def st1 : TrustState := (submit_verification env0 st0 r0).1

/-- Trust state after resubmitting the identical `r0`. -/
def st2 : TrustState := (submit_verification env0 st1 r0).1

/-- Concrete confirmation by worker wA for range [0, 1000). -/
def vrA : VerificationResult :=
  { worker_id := "wA"
    range_start := 0
    range_end := 1000
    all_converged := true
    numbers_checked := 500
    compute_time := 1
    timestamp := 1
    signature := "sA"
    proof_cid := "cA" }

/-- Concrete pending consensus state for [0, 1000) holding the confirmation of
wA with five still required. -/
def csOpen : ConsensusState :=
  { range_start := 0
    range_end := 1000
    required_confirmations := 5
    confirmations := [vrA]
    consensus_reached := false
    consensus_result := none
    conflicting_results := [] }

/-- Concrete proof-verification state: banned worker wB is registered and the
range [0, 1000) is collecting confirmations. -/
def pvStBanned : PVState :=
  { trust := { workers := [("wB", bannedStats)], pending_consensus := [((0, 1000), csOpen)] }
    pending_cross_checks := [] }

/-- Crypto oracles that accept every signature and hash to the constant "h". -/
def pvEnvOk : PVEnv := { sigOk := fun _ => true, hashFn := fun _ => "h" }

/-- Crypto oracles that reject every signature. -/
def pvEnvBad : PVEnv := { sigOk := fun _ => false, hashFn := fun _ => "h" }

/-- Concrete signed proof of banned worker wB for the range [0, 1000); its
contents pass every validation rule under `pvEnvOk`. -/
def proofB : SignedProof :=
  { worker_id := "wB"
    range_start := 0
    range_end := 1000
    all_converged := true
    numbers_checked := 500
    max_steps := 1000
    compute_time := 1
    timestamp := 2
    ipfs_cid := "cB"
    public_key_pem := "pk"
    signature_hex := "sB"
    proof_hash := "h" }

/-- The verification record `submit_for_consensus` builds from `proofB`. -/
def vBrec : VerificationResult :=
  { worker_id := "wB"
    range_start := 0
    range_end := 1000
    all_converged := true
    numbers_checked := 500
    compute_time := 1
    timestamp := 2
    signature := "sB"
    proof_cid := "cB" }

/-- Empty proof-verification state. -/
def pvStEmpty : PVState :=
  { trust := { workers := [], pending_consensus := [] }, pending_cross_checks := [] }

/-- Concrete registered (untrusted) worker wR. -/
def regW : WorkerStats := freshWorkerStats env0 "wR"

/-- Proof-verification state with only wR registered. -/
def pvStReg : PVState :=
  { trust := { workers := [("wR", regW)], pending_consensus := [] }
    pending_cross_checks := [] }

/-- The proof `proofB` resubmitted under the identity of wR. -/
def proofR : SignedProof := { proofB with worker_id := "wR" }

/-- The worker statistics recorded for w after the first submission of `r0`
(same term the submission path builds, so the lookup is definitional). -/
def wStats1 : WorkerStats :=
  { freshWorkerStats env0 "w" with
    last_active := r0.timestamp
    total_verifications := (freshWorkerStats env0 "w").total_verifications + 1
    total_numbers_checked := (freshWorkerStats env0 "w").total_numbers_checked + r0.numbers_checked
    total_compute_time := (freshWorkerStats env0 "w").total_compute_time + r0.compute_time }

/-- The pending consensus state for the range of `r0` after its first
submission. -/
def cs1 : ConsensusState :=
  { range_start := 1
    range_end := 1001
    required_confirmations := 5
    confirmations := [r0]
    consensus_reached := false
    consensus_result := none
    conflicting_results := [] }

/-- Coordinator state with frontier 1000000 and no assignments or proofs. -/
def stFrontier : CoordState :=
  { work_assignments := [], verification_proofs := [], global_highest_proven := 1000000 }

/-- Concrete verification proof stored locally under id p1. -/
def prfA : VerificationProof :=
  { proof_id := "p1"
    worker_id := "wA"
    assignment_id := "a1"
    range_start := 0
    range_end := 100
    all_converged := true
    numbers_checked := 50
    max_steps := 100
    compute_time := 1
    timestamp := 1
    ipfs_cid := "c"
    signature := "s" }

/-- Concrete local replica used by the merge witness. -/
def mergeLocal : CoordState :=
  { work_assignments := [("a1", staleAsg)]
    verification_proofs := [("p1", prfA)]
    global_highest_proven := 100 }

/-- Concrete peer snapshot claiming a lower frontier. -/
def mergePeerSnap : PeerState :=
  { work_assignments := [], verification_proofs := [], global_highest_proven := 50 }

/-- The timestamp order on counterexample proofs is total. -/
instance instCEProofLeTotal :
    IsTotal CEProof (fun a b => a.timestamp ≤ b.timestamp) :=
  ⟨fun a b => le_total a.timestamp b.timestamp⟩

/-- The timestamp order on counterexample proofs is transitive. -/
instance instCEProofLeTrans :
    IsTrans CEProof (fun a b => a.timestamp ≤ b.timestamp) :=
  ⟨fun _ _ _ h1 h2 => le_trans h1 h2⟩

/-- Concrete pending consensus state for [0, 1000): confirmation of wA already
recorded, two confirmations required in total. -/
def csTwo : ConsensusState :=
  { range_start := 0
    range_end := 1000
    required_confirmations := 2
    confirmations := [vrA]
    consensus_reached := false
    consensus_result := none
    conflicting_results := [] }

/-- Concrete trust state one confirmation short of resolving [0, 1000). -/
def stC1 : TrustState :=
  { workers := [("wA", freshWorkerStats env0 "wA")]
    pending_consensus := [((0, 1000), csTwo)] }

/-- A matching second confirmation by worker wB. -/
def vrB : VerificationResult := { vrA with worker_id := "wB", timestamp := 2 }

/-- Concrete non-convergent proof reports with distinct timestamps, submitted
out of timestamp order. -/
def ceP1 : CEProof :=
  { worker_id := "u1"
    user_id := none
    range_start := 5
    range_end := 10
    all_converged := false
    timestamp := 30
    ipfs_cid := "c1" }

/-- Second concrete non-convergent report (the earliest, t = 10). -/
def ceP2 : CEProof :=
  { worker_id := "u2"
    user_id := some "U2"
    range_start := 5
    range_end := 10
    all_converged := false
    timestamp := 10
    ipfs_cid := "c2" }

/-- Third concrete non-convergent report (t = 20). -/
def ceP3 : CEProof :=
  { worker_id := "u3"
    user_id := some "U3"
    range_start := 5
    range_end := 10
    all_converged := false
    timestamp := 20
    ipfs_cid := "c3" }

theorem lookupKV_insertKV_self {K V : Type} [DecidableEq K]
    (m : List (K × V)) (k : K) (v : V) :
    lookupKV (insertKV m k v) k = some v := by
  induction m with
  | nil => simp [insertKV, lookupKV]
  | cons kv rest ih =>
      obtain ⟨k', v'⟩ := kv
      by_cases h : k = k'
      · simp [insertKV, lookupKV, h]
      · simp [insertKV, lookupKV, h, ih]

theorem lookupKV_insertKV_ne {K V : Type} [DecidableEq K]
    (m : List (K × V)) (k w : K) (v : V) (h : w ≠ k) :
    lookupKV (insertKV m k v) w = lookupKV m w := by
  induction m with
  | nil => simp [insertKV, lookupKV, h]
  | cons kv rest ih =>
      obtain ⟨k', v'⟩ := kv
      by_cases hk : k = k'
      · subst hk
        simp [insertKV, lookupKV, h]
      · by_cases hw : w = k'
        · simp [insertKV, lookupKV, hk, hw]
        · simp [insertKV, lookupKV, hk, hw, ih]

/-- C9: `calculate_reputation` is total, always lands in [0, 100] whatever the
oracle values of the logarithm and the decay power are, and a worker with zero
total verifications scores exactly 0 through the guarding zero test (the
accuracy quotient is confined to the other branch). -/
theorem C9_calculate_reputation_total_bounded (env : Env) (stats : WorkerStats) :
    (0 ≤ calculate_reputation env stats ∧ calculate_reputation env stats ≤ 100) ∧
      (stats.total_verifications = 0 → calculate_reputation env stats = 0) := by
  unfold calculate_reputation
  by_cases h : stats.total_verifications = 0
  · simp [h]
  · simp only [if_neg h]
    exact ⟨⟨le_max_left _ _,
      max_le (by norm_num) (le_trans (min_le_left _ _) (by norm_num))⟩,
      fun h0 => absurd h0 h⟩

/-- C9 witness: at a concrete freshly registered worker the bound theorem
yields reputation 0. -/
theorem C9_calculate_reputation_witness :
    calculate_reputation env0 (freshWorkerStats env0 "w") = 0 :=
  (C9_calculate_reputation_total_bounded env0 (freshWorkerStats env0 "w")).2 rfl

/-- C3 counterexample: `update_trust_level` moves a concrete elite worker with
one recorded incorrect verification down to TRUSTED, a strictly lower
non-BANNED tier, refuting the claim that the only downward transition is to
BANNED. -/
theorem C3_tier_counterexample :
    eliteSlipStats.trust_level = .ELITE ∧
    (update_trust_level eliteSlipStats).trust_level = .TRUSTED ∧
    (update_trust_level eliteSlipStats).trust_level ≠ .BANNED ∧
    tierRank (update_trust_level eliteSlipStats).trust_level <
      tierRank eliteSlipStats.trust_level := by
  have hban : ¬ (eliteSlipStats.total_verifications ≥ 20 ∧
      ((eliteSlipStats.incorrect_verifications : ℚ) /
          (eliteSlipStats.total_verifications : ℚ) > 10 / 100 ∨
        eliteSlipStats.consecutive_incorrect ≥ 3)) := by
    simp only [eliteSlipStats]
    norm_num
  have h1 : update_trust_level eliteSlipStats =
      { eliteSlipStats with trust_level := .TRUSTED } := by
    unfold update_trust_level
    rw [if_neg (by decide), if_neg hban, if_neg (by decide), if_pos (by decide)]
  rw [h1]
  exact ⟨rfl, rfl, by decide, by decide⟩

/-- C3 amended: under the ledger invariants tying each promoted tier to its
correct-count threshold, `update_trust_level` never lowers a tier except to
BANNED or from ELITE to TRUSTED (possible only with an incorrect verification
on record), BANNED is terminal there, and the Byzantine countermeasure
demotion sends exactly the TRUSTED/ELITE workers of a flagged user to
VERIFIED while leaving banned workers untouched. -/
theorem C3_tier_amended (s : WorkerStats)
    (hV : s.trust_level = .VERIFIED → 10 ≤ s.correct_verifications)
    (hT : s.trust_level = .TRUSTED → 100 ≤ s.correct_verifications)
    (hE : s.trust_level = .ELITE → 1000 ≤ s.correct_verifications) :
    (s.trust_level = .BANNED → update_trust_level s = s) ∧
    ((update_trust_level s).trust_level = .BANNED ∨
      tierRank s.trust_level ≤ tierRank (update_trust_level s).trust_level ∨
      (s.trust_level = .ELITE ∧ (update_trust_level s).trust_level = .TRUSTED ∧
        s.incorrect_verifications ≠ 0)) ∧
    ((s.trust_level = .TRUSTED ∨ s.trust_level = .ELITE) →
      (byzantine_demote s).trust_level = .VERIFIED) ∧
    (s.trust_level = .BANNED → byzantine_demote s = s) := by
  refine ⟨fun hb => by simp [update_trust_level, hb], ?_,
    fun h => by rcases h with h | h <;> simp [byzantine_demote, h],
    fun hb => by simp [byzantine_demote, hb]⟩
  by_cases hb : s.trust_level = .BANNED
  · have hs : update_trust_level s = s := by simp [update_trust_level, hb]
    rw [hs]
    exact Or.inl hb
  · unfold update_trust_level
    rw [if_neg hb]
    by_cases hban : s.total_verifications ≥ 20 ∧
        ((s.incorrect_verifications : ℚ) / (s.total_verifications : ℚ) > 10 / 100 ∨
          s.consecutive_incorrect ≥ 3)
    · rw [if_pos hban]
      exact Or.inl rfl
    · rw [if_neg hban]
      by_cases helite : s.correct_verifications ≥ 1000 ∧ s.incorrect_verifications = 0
      · rw [if_pos helite]
        right; left
        show tierRank s.trust_level ≤ tierRank .ELITE
        cases hl : s.trust_level
        · decide
        · decide
        · decide
        · decide
        · exact absurd hl hb
      · rw [if_neg helite]
        by_cases htr : s.correct_verifications ≥ 100
        · rw [if_pos htr]
          by_cases hl : s.trust_level = .ELITE
          · right; right
            exact ⟨hl, rfl, fun hzero => helite ⟨hE hl, hzero⟩⟩
          · right; left
            show tierRank s.trust_level ≤ tierRank .TRUSTED
            cases hlv : s.trust_level
            · decide
            · decide
            · decide
            · exact absurd hlv hl
            · exact absurd hlv hb
        · rw [if_neg htr]
          by_cases hver : s.correct_verifications ≥ 10
          · rw [if_pos hver]
            right; left
            show tierRank s.trust_level ≤ tierRank .VERIFIED
            cases hlv : s.trust_level with
            | UNTRUSTED => decide
            | VERIFIED => decide
            | TRUSTED => exact absurd (hT hlv) htr
            | ELITE => exact absurd (le_trans (by norm_num) (hE hlv)) htr
            | BANNED => exact absurd hlv hb
          · rw [if_neg hver]
            exact Or.inr (Or.inl le_rfl)

/-- C3 witness: applying the amended theorem at a concrete banned worker
shows both operations leave it banned and unchanged. -/
theorem C3_tier_amended_witness :
    update_trust_level bannedStats = bannedStats ∧
      byzantine_demote bannedStats = bannedStats := by
  have h := C3_tier_amended bannedStats (by decide) (by decide) (by decide)
  exact ⟨h.1 rfl, h.2.2.2 rfl⟩

/-- C7: evaluating `register_worker_availability` at a concrete state with a
stale worker shows the eviction frees the claim and reopens the assignment
but fails to remove the stale worker from `assigned_workers` (the source
removes the REGISTERING worker id instead of the stale one). -/
theorem C7_stale_eviction_eval :
    (lookupKV (register_worker_availability envT1000 staleState "w2" none).available_workers
        "w1" = none) ∧
    (lookupKV (register_worker_availability envT1000 staleState "w2" none).worker_assignments
        "w1" = none) ∧
    ((lookupKV (register_worker_availability envT1000 staleState "w2" none).work_assignments
        "a1").map (fun a => (a.status, a.assigned_workers))) =
      some ("available", ["w1"]) := by
  have hstep : register_worker_availability envT1000 staleState "w2" none =
      { available_workers := [("w2", { timestamp := 1000, user_id := none })]
        worker_assignments := []
        work_assignments := [("a1", { staleAsg with status := "available" })] } := by
    unfold register_worker_availability evictStale
    norm_num [staleState, staleAsg, envT1000, insertKV, eraseKV, lookupKV,
      List.filter, List.foldl]
    decide
  rw [hstep]
  exact ⟨rfl, rfl, rfl⟩

/-- C2 amended: a resubmission by a worker already among the confirmations of
its range leaves the pending consensus table untouched and reaches no
consensus, but it does bump the worker's total-verification, numbers-checked
and compute-time counters and its last-active stamp once more. -/
theorem C2_resubmission_amended (env : Env) (st : TrustState) (r : VerificationResult)
    (s : WorkerStats) (cs : ConsensusState)
    (hw : lookupKV st.workers r.worker_id = some s)
    (hc : lookupKV st.pending_consensus (r.range_start, r.range_end) = some cs)
    (hdup : r.worker_id ∈ cs.confirmations.map (·.worker_id)) :
    submit_verification env st r =
      ({ workers := insertKV st.workers r.worker_id
           { s with
             last_active := r.timestamp
             total_verifications := s.total_verifications + 1
             total_numbers_checked := s.total_numbers_checked + r.numbers_checked
             total_compute_time := s.total_compute_time + r.compute_time }
         pending_consensus := st.pending_consensus }, false,
        "Worker already submitted verification for this range") := by
  simp only [submit_verification, hw, hc]
  simp [hdup]

/-- C2 counterexample: submitting the identical result `r0` twice from the
empty ledger leaves the worker with total-verification count 2, not the count
1 it had after the first submission, refuting the claim that a resubmission
leaves the worker statistics unchanged. -/
theorem C2_resubmission_counterexample :
    workerTotal st1 "w" = 1 ∧ workerTotal st2 "w" = 2 := by decide

/-- C2 witness: applying the resubmission theorem at the concrete state after
the first submission of `r0` shows the duplicate call reports no consensus and
leaves the pending table unchanged. -/
theorem C2_resubmission_witness :
    (submit_verification env0 st1 r0).2.1 = false ∧
    (submit_verification env0 st1 r0).1.pending_consensus = st1.pending_consensus := by
  have h := C2_resubmission_amended env0 st1 r0 wStats1 cs1 rfl (by decide) (by decide)
  rw [h]
  exact ⟨rfl, rfl⟩

/-- C4: evaluating the submission pipeline at a concrete banned worker shows
its validly signed proof is NOT rejected: the proof is appended to the
confirmations of the open range [0, 1000) and the banned worker's
total-verification counter is bumped from 25 to 26 — the submission path never
consults the trust tier. -/
theorem C4_banned_worker_eval :
    workerLevel pvStBanned.trust "wB" = .BANNED ∧
    (validate_proof pvEnvOk env0 proofB).1 = true ∧
    ((lookupKV (submit_for_consensus pvEnvOk env0 pvStBanned proofB).1.trust.pending_consensus
        (0, 1000)).map (fun cs => cs.confirmations.map (·.worker_id))) = some ["wA", "wB"] ∧
    workerTotal (submit_for_consensus pvEnvOk env0 pvStBanned proofB).1.trust "wB" = 26 := by
  have hval : validate_proof pvEnvOk env0 proofB = (true, "Proof is valid") := by
    simp only [validate_proof, pvEnvOk, env0, proofB, proofDataOf]
    norm_num
  have hred : submit_for_consensus pvEnvOk env0 pvStBanned proofB =
      ({ trust := (submit_verification env0 pvStBanned.trust vBrec).1
         pending_cross_checks := [((0, 1000), [proofB])] },
        (submit_verification env0 pvStBanned.trust vBrec).2.1,
        (submit_verification env0 pvStBanned.trust vBrec).2.2) := by
    simp only [submit_for_consensus]
    rw [hval]
    rfl
  rw [hred]
  refine ⟨rfl, by rw [hval], ?_, ?_⟩ <;> decide

/-- C5 counterexample: a proof whose signature fails validation is rejected,
but when its submitter is not yet registered in the trust ledger nothing is
banned — the state is returned unchanged, so the claim that every validation
failure sets the submitter's tier to BANNED fails for unregistered
submitters. -/
theorem C5_unregistered_counterexample :
    (validate_proof pvEnvBad env0 proofB).1 = false ∧
    submit_for_consensus pvEnvBad env0 pvStEmpty proofB =
      (pvStEmpty, false, "Proof validation failed") := by decide

/-- C5 amended: a proof failing validation is rejected with no change to the
pending consensus table or the cross-check table; the submitter's tier is set
to BANNED when the submitter is registered, while an unregistered submitter
leaves the whole state untouched; no other worker's record changes. -/
theorem C5_validation_failure_amended (penv : PVEnv) (env : Env) (st : PVState)
    (p : SignedProof) (hv : (validate_proof penv env p).1 = false) :
    (submit_for_consensus penv env st p).2.1 = false ∧
    (submit_for_consensus penv env st p).1.pending_cross_checks = st.pending_cross_checks ∧
    (submit_for_consensus penv env st p).1.trust.pending_consensus = st.trust.pending_consensus ∧
    (∀ s, lookupKV st.trust.workers p.worker_id = some s →
      lookupKV (submit_for_consensus penv env st p).1.trust.workers p.worker_id =
        some { s with trust_level := .BANNED }) ∧
    (lookupKV st.trust.workers p.worker_id = none →
      (submit_for_consensus penv env st p).1 = st) ∧
    (∀ w, w ≠ p.worker_id →
      lookupKV (submit_for_consensus penv env st p).1.trust.workers w =
        lookupKV st.trust.workers w) := by
  cases hlk : lookupKV st.trust.workers p.worker_id with
  | none =>
      have hout : submit_for_consensus penv env st p = (st, false, "Proof validation failed") := by
        simp only [submit_for_consensus, hv, eq_self_iff_true, if_true, hlk]
      rw [hout]
      exact ⟨rfl, rfl, rfl, fun s hs => Option.noConfusion hs, fun _ => rfl,
        fun w hw => rfl⟩
  | some s0 =>
      have hout : submit_for_consensus penv env st p =
          ({ trust :=
              { workers :=
                  insertKV st.trust.workers p.worker_id { s0 with trust_level := .BANNED },
                pending_consensus := st.trust.pending_consensus },
             pending_cross_checks := st.pending_cross_checks }, false,
            "Proof validation failed") := by
        simp only [submit_for_consensus, hv, eq_self_iff_true, if_true, hlk]
      rw [hout]
      refine ⟨rfl, rfl, rfl, ?_, ?_, ?_⟩
      · intro s hs
        injection hs with he
        subst he
        exact lookupKV_insertKV_self _ _ _
      · intro hnone
        exact Option.noConfusion hnone
      · intro w hw
        exact lookupKV_insertKV_ne _ _ _ _ hw

/-- C5 witness: applying the amended theorem at a concrete registered worker
wR and an invalid proof shows wR is banned on the spot. -/
theorem C5_validation_failure_witness :
    lookupKV ((submit_for_consensus pvEnvBad env0 pvStReg proofR).1.trust.workers) "wR" =
      some { regW with trust_level := .BANNED } := by
  have h := C5_validation_failure_amended pvEnvBad env0 pvStReg proofR (by decide)
  exact h.2.2.2.1 regW (by decide)

/-- C6 counterexample: with no completed assignments at all, a claim one full
range width beyond the frontier has a coverage gap of one range width — ten
times the allowed 10% — and continuous-coverage validation rejects it, yet
`validate_peer_progress_claim` accepts the claim through its small-increment
allowance (up to 10 range widths need no covering work). -/
theorem C6_coverage_gap_counterexample :
    validate_continuous_coverage stFrontier 1000000 (1000000 + RANGE_SIZE) = false ∧
    10 * ((1000000 + RANGE_SIZE) - 1000000) > RANGE_SIZE ∧
    validate_peer_progress_claim env0 stFrontier (1000000 + RANGE_SIZE) = true := by
  refine ⟨by decide, by decide, ?_⟩
  have h3 : has_sufficient_completed_work_for_progress env0 stFrontier
      (1000000 + RANGE_SIZE) = false := by decide
  unfold validate_peer_progress_claim
  rw [h3]
  norm_num [stFrontier, RANGE_SIZE]

/-- C6 amended: progress-claim validation rejects (a) claims below 99% of the
held frontier, (b) claims more than 100 range widths ahead, and (c) claims
more than 10 range widths ahead whose completed work fails the
coverage/redundancy/recency validation; a rejected claim never moves the held
frontier.  Claims within 10 range widths of the frontier pass regardless of
coverage. -/
theorem C6_progress_validation_amended (env : Env) (st : CoordState) (claimed : Int) :
    ((claimed : ℚ) < (st.global_highest_proven : ℚ) * (99 / 100) →
      validate_peer_progress_claim env st claimed = false) ∧
    (claimed > st.global_highest_proven + RANGE_SIZE * 100 →
      validate_peer_progress_claim env st claimed = false) ∧
    (claimed > st.global_highest_proven + RANGE_SIZE * 10 →
      has_sufficient_completed_work_for_progress env st claimed = false →
      validate_peer_progress_claim env st claimed = false) ∧
    (validate_peer_progress_claim env st claimed = false →
      mergeHighest env st claimed = st) := by
  refine ⟨?_, ?_, ?_, ?_⟩
  · intro h
    simp [validate_peer_progress_claim, h]
  · intro h
    by_cases h1 : (claimed : ℚ) < (st.global_highest_proven : ℚ) * (99 / 100)
    · simp [validate_peer_progress_claim, h1]
    · simp [validate_peer_progress_claim, h1, h]
  · intro h hs
    by_cases h1 : (claimed : ℚ) < (st.global_highest_proven : ℚ) * (99 / 100)
    · simp [validate_peer_progress_claim, h1]
    · by_cases h2 : claimed > st.global_highest_proven + RANGE_SIZE * 100
      · simp [validate_peer_progress_claim, h1, h2]
      · have h4 : ¬ (claimed ≤ st.global_highest_proven + RANGE_SIZE * 10) := not_le.mpr h
        simp [validate_peer_progress_claim, h1, h2, hs, h4]
  · intro hv
    simp [mergeHighest, hv]

/-- C6 witness: applying the amended theorem at a concrete claim far below
99% of the frontier shows the claim is rejected and the frontier unmoved. -/
theorem C6_progress_validation_witness :
    validate_peer_progress_claim env0 stFrontier 5 = false ∧
    mergeHighest env0 stFrontier 5 = stFrontier := by
  have h := C6_progress_validation_amended env0 stFrontier 5
  have h1 : ((5 : Int) : ℚ) < (stFrontier.global_highest_proven : ℚ) * (99 / 100) := by
    simp only [stFrontier]
    push_cast
    norm_num
  exact ⟨h.1 h1, h.2.2.2 (h.1 h1)⟩

theorem lookupKV_foldl_mergeProof (l : List VerificationProof)
    (m : List (String × VerificationProof)) (k : String) (p : VerificationProof)
    (h : lookupKV m k = some p) :
    lookupKV (l.foldl mergeProof m) k = some p := by
  induction l generalizing m with
  | nil => exact h
  | cons x xs ih =>
      rw [List.foldl_cons]
      apply ih
      cases hx : lookupKV m x.proof_id with
      | some ex => simp only [mergeProof, hx]; exact h
      | none =>
          simp only [mergeProof, hx]
          have hne : k ≠ x.proof_id := by
            intro e
            rw [e, hx] at h
            exact Option.noConfusion h
          rw [lookupKV_insertKV_ne _ _ _ _ hne]
          exact h

theorem lookupKV_foldl_mergeAssignment (l : List WorkAssignment)
    (m : List (String × WorkAssignment)) (k : String) (a : WorkAssignment)
    (h : lookupKV m k = some a) :
    ∃ a', lookupKV (l.foldl mergeAssignment m) k = some a' ∧
      (a' = a ∨ (a.completed_workers.length < a'.completed_workers.length ∧
        a'.assignment_id = k)) := by
  induction l generalizing m a with
  | nil => exact ⟨a, h, Or.inl rfl⟩
  | cons x xs ih =>
      rw [List.foldl_cons]
      by_cases hk : k = x.assignment_id
      · subst hk
        by_cases hlen : x.completed_workers.length > a.completed_workers.length
        · have hm : mergeAssignment m x = insertKV m x.assignment_id x := by
            simp only [mergeAssignment, h]
            rw [if_pos hlen]
          rw [hm]
          obtain ⟨a', ha', hr⟩ := ih (insertKV m x.assignment_id x) x
            (lookupKV_insertKV_self _ _ _)
          refine ⟨a', ha', ?_⟩
          rcases hr with rfl | ⟨hlt, hid⟩
          · exact Or.inr ⟨hlen, rfl⟩
          · exact Or.inr ⟨lt_trans hlen hlt, hid⟩
        · have hm : mergeAssignment m x = m := by
            simp only [mergeAssignment, h]
            rw [if_neg hlen]
          rw [hm]
          exact ih m a h
      · have hpre : lookupKV (mergeAssignment m x) k = some a := by
          cases hx : lookupKV m x.assignment_id with
          | none =>
              simp only [mergeAssignment, hx]
              rw [lookupKV_insertKV_ne _ _ _ _ hk]
              exact h
          | some ex =>
              simp only [mergeAssignment, hx]
              by_cases hlen : x.completed_workers.length > ex.completed_workers.length
              · rw [if_pos hlen, lookupKV_insertKV_ne _ _ _ _ hk]
                exact h
              · rw [if_neg hlen]
                exact h
        exact ih _ a hpre

/-- C10: `merge_peer_state` is monotone on the local replica — every locally
known assignment id survives the merge (its value either unchanged or replaced
by a copy under the same id with strictly more completed workers), every
locally known proof id keeps its exact proof, and the held frontier never
decreases. -/
theorem C10_merge_peer_state_monotone (env : Env) (st : CoordState) (peer : PeerState) :
    (∀ k a, lookupKV st.work_assignments k = some a →
      ∃ a', lookupKV (merge_peer_state env st peer).work_assignments k = some a' ∧
        (a' = a ∨ (a.completed_workers.length < a'.completed_workers.length ∧
          a'.assignment_id = k))) ∧
    (∀ k p, lookupKV st.verification_proofs k = some p →
      lookupKV (merge_peer_state env st peer).verification_proofs k = some p) ∧
    st.global_highest_proven ≤ (merge_peer_state env st peer).global_highest_proven := by
  have hw : (merge_peer_state env st peer).work_assignments =
      peer.work_assignments.foldl mergeAssignment st.work_assignments := by
    simp only [merge_peer_state, mergeHighest]
    split <;> rfl
  have hp : (merge_peer_state env st peer).verification_proofs =
      peer.verification_proofs.foldl mergeProof st.verification_proofs := by
    simp only [merge_peer_state, mergeHighest]
    split <;> rfl
  refine ⟨?_, ?_, ?_⟩
  · intro k a h
    rw [hw]
    exact lookupKV_foldl_mergeAssignment _ _ _ _ h
  · intro k p h
    rw [hp]
    exact lookupKV_foldl_mergeProof _ _ _ _ h
  · simp only [merge_peer_state, mergeHighest]
    split
    next hcond => exact le_of_lt hcond.1
    next => exact le_refl _

/-- C10 witness: merging a concrete peer snapshot with a lower frontier keeps
the locally stored proof p1 and does not decrease the frontier. -/
theorem C10_merge_peer_state_witness :
    lookupKV (merge_peer_state env0 mergeLocal mergePeerSnap).verification_proofs "p1" =
      some prfA ∧
    mergeLocal.global_highest_proven ≤
      (merge_peer_state env0 mergeLocal mergePeerSnap).global_highest_proven := by
  have h := C10_merge_peer_state_monotone env0 mergeLocal mergePeerSnap
  exact ⟨h.2.1 "p1" prfA (by decide), h.2.2⟩

theorem uniqueResults_iff (l : List Bool) (x : Bool) (hx : x ∈ l) :
    uniqueResults l = true ↔ ∀ b ∈ l, b = x := by
  cases l with
  | nil => cases hx
  | cons b bs =>
      simp only [uniqueResults, List.all_eq_true, beq_iff_eq]
      constructor
      · intro H c hc
        have hxb : x = b := by
          rcases List.mem_cons.mp hx with h | h
          · exact h
          · exact H x h
        rcases List.mem_cons.mp hc with h | h
        · rw [h, hxb]
        · rw [H c h, hxb]
      · intro H c hc
        rw [H c (List.mem_cons_of_mem _ hc), H b (List.mem_cons_self _ _)]

theorem headD_append_singleton_mem {α : Type} (l : List α) (x d : α) :
    (l ++ [x]).headD d ∈ l ++ [x] := by
  cases l <;> simp

/-- C1: when a submission brings the confirmation count of an already open
range up to (or beyond) the required count, `submit_verification` resolves
the range exactly when every accepted confirmation reports the same boolean;
on any disagreement it reports no resolution, marks the state unresolved,
raises the required count by exactly 3, keeps the enlarged confirmation list
collecting, and penalizes no worker (no incorrect counter, streak or trust
tier changes for anyone). -/
theorem C1_consensus_unanimity (env : Env) (st : TrustState) (r : VerificationResult)
    (cs : ConsensusState)
    (hc : lookupKV st.pending_consensus (r.range_start, r.range_end) = some cs)
    (hnd : r.worker_id ∉ cs.confirmations.map (·.worker_id))
    (hpend : cs.consensus_reached = false)
    (hlen : cs.confirmations.length + 1 ≥ cs.required_confirmations) :
    ((∀ c ∈ cs.confirmations ++ [r], c.all_converged = r.all_converged) →
      (submit_verification env st r).2.1 = true ∧
      ∃ cs', lookupKV (submit_verification env st r).1.pending_consensus
          (r.range_start, r.range_end) = some cs' ∧
        cs'.consensus_reached = true ∧
        cs'.consensus_result = some r.all_converged ∧
        cs'.confirmations = cs.confirmations ++ [r]) ∧
    ((¬ ∀ c ∈ cs.confirmations ++ [r], c.all_converged = r.all_converged) →
      (submit_verification env st r).2.1 = false ∧
      ∃ cs', lookupKV (submit_verification env st r).1.pending_consensus
          (r.range_start, r.range_end) = some cs' ∧
        cs'.consensus_reached = false ∧
        cs'.required_confirmations = cs.required_confirmations + 3 ∧
        cs'.confirmations = cs.confirmations ++ [r] ∧
        (∀ w, workerIncorrect (submit_verification env st r).1 w = workerIncorrect st w ∧
          workerConsecIncorrect (submit_verification env st r).1 w =
            workerConsecIncorrect st w ∧
          workerLevel (submit_verification env st r).1 w = workerLevel st w)) := by
  have hlen' : (cs.confirmations ++ [r]).length ≥ cs.required_confirmations := by
    simpa using hlen
  have hmem : r.all_converged ∈ (cs.confirmations ++ [r]).map (·.all_converged) :=
    List.mem_map_of_mem _ (by simp)
  constructor
  · intro hU
    have huniq : uniqueResults ((cs.confirmations ++ [r]).map (·.all_converged)) = true := by
      rw [uniqueResults_iff _ _ hmem]
      intro b hb
      obtain ⟨c, hcmem, rfl⟩ := List.mem_map.mp hb
      exact hU c hcmem
    simp only [submit_verification, hc]
    rw [if_neg hnd, if_pos hlen', huniq, if_pos rfl]
    refine ⟨rfl, _, lookupKV_insertKV_self _ _ _, rfl, ?_, rfl⟩
    exact congrArg some (hU _ (headD_append_singleton_mem cs.confirmations r r))
  · intro hU
    have huniq : ¬ (uniqueResults ((cs.confirmations ++ [r]).map (·.all_converged)) = true) := by
      intro h
      apply hU
      intro c hcmem
      exact (uniqueResults_iff _ _ hmem).mp h _ (List.mem_map_of_mem _ hcmem)
    simp only [submit_verification, hc]
    rw [if_neg hnd, if_pos hlen', if_neg huniq]
    refine ⟨rfl, _, lookupKV_insertKV_self _ _ _, hpend, rfl, rfl, ?_⟩
    intro w
    by_cases hw : w = r.worker_id
    · subst hw
      unfold workerIncorrect workerConsecIncorrect workerLevel
      rw [lookupKV_insertKV_self]
      cases hlk : lookupKV st.workers r.worker_id with
      | none => simp [hlk, freshWorkerStats]
      | some s => simp [hlk]
    · unfold workerIncorrect workerConsecIncorrect workerLevel
      rw [lookupKV_insertKV_ne _ _ _ _ hw]
      exact ⟨rfl, rfl, rfl⟩

/-- C1 witness: at the concrete state one confirmation short, a matching
confirmation by a second worker resolves the range. -/
theorem C1_consensus_unanimity_witness :
    (submit_verification env0 stC1 vrB).2.1 = true := by
  have h := C1_consensus_unanimity env0 stC1 vrB csTwo (by decide) (by decide) (by decide)
    (by decide)
  exact (h.1 (by decide)).1

theorem exists_three_head {α : Type} (l : List α) (h : 3 ≤ l.length) :
    ∃ a b c t, l = a :: b :: c :: t := by
  cases l with
  | nil => simp at h
  | cons a t =>
      cases t with
      | nil => simp at h
      | cons b t2 =>
          cases t2 with
          | nil => simp at h
          | cons c t3 => exact ⟨a, b, c, t3, rfl⟩

/-- C8: `check_for_counterexample` produces a record exactly when at least 3
proofs report non-convergence, and the record names as discoverer the
submitter of the earliest non-convergent proof by timestamp and as first
verifiers the next two in timestamp order (the first three entries of the
stable timestamp sort of the non-convergent proofs); the function returns at
most one record per call. -/
theorem C8_counterexample_record (env : Env) (aid : String) (proofs : List CEProof) :
    (check_for_counterexample env aid proofs = none ↔
      (proofs.filter (fun p => ! p.all_converged)).length < 3) ∧
    (∀ cer, check_for_counterexample env aid proofs = some cer →
      ∃ p0 p1 p2 rest,
        List.insertionSort (fun a b => a.timestamp ≤ b.timestamp)
            (proofs.filter (fun p => ! p.all_converged)) = p0 :: p1 :: p2 :: rest ∧
        cer.discovered_by_worker = p0.worker_id ∧
        cer.discovered_by_user = p0.user_id.getD "anonymous" ∧
        cer.first_verifiers = [(p1.worker_id, p1.user_id.getD "anonymous"),
          (p2.worker_id, p2.user_id.getD "anonymous")] ∧
        cer.verification_count = (proofs.filter (fun p => ! p.all_converged)).length ∧
        p0 ∈ proofs.filter (fun p => ! p.all_converged) ∧
        p1 ∈ proofs.filter (fun p => ! p.all_converged) ∧
        p2 ∈ proofs.filter (fun p => ! p.all_converged) ∧
        (∀ q ∈ proofs.filter (fun p => ! p.all_converged),
          p0.timestamp ≤ q.timestamp) ∧
        p0.timestamp ≤ p1.timestamp ∧ p1.timestamp ≤ p2.timestamp) := by
  by_cases h3 : (proofs.filter (fun p => ! p.all_converged)).length < 3
  · have hnone : check_for_counterexample env aid proofs = none := by
      simp only [check_for_counterexample]
      rw [if_pos h3]
    refine ⟨⟨fun _ => h3, fun _ => hnone⟩, ?_⟩
    intro cer hcer
    rw [hnone] at hcer
    exact Option.noConfusion hcer
  · have hlen3 : 3 ≤ (List.insertionSort (fun a b : CEProof => a.timestamp ≤ b.timestamp)
        (proofs.filter (fun p => ! p.all_converged))).length := by
      rw [(List.perm_insertionSort _ _).length_eq]
      omega
    obtain ⟨p0, p1, p2, rest, hs⟩ := exists_three_head _ hlen3
    have hperm := List.perm_insertionSort (fun a b : CEProof => a.timestamp ≤ b.timestamp)
      (proofs.filter (fun p => ! p.all_converged))
    have hsorted := List.sorted_insertionSort (fun a b : CEProof => a.timestamp ≤ b.timestamp)
      (proofs.filter (fun p => ! p.all_converged))
    rw [hs] at hperm hsorted
    have hcheck : check_for_counterexample env aid proofs =
        some
          { counterexample_number := p0.range_start
            discovered_by_worker := p0.worker_id
            discovered_by_user := p0.user_id.getD "anonymous"
            discovered_at := p0.timestamp
            first_verifiers := [(p1.worker_id, p1.user_id.getD "anonymous"),
              (p2.worker_id, p2.user_id.getD "anonymous")]
            verification_count := (proofs.filter (fun p => ! p.all_converged)).length
            range_start := p0.range_start
            range_end := p0.range_end
            assignment_id := aid
            ipfs_proof_cid := p0.ipfs_cid
            consensus_reached_at := env.now } := by
      simp only [check_for_counterexample]
      rw [if_neg h3, hs]
    refine ⟨⟨fun hn => absurd hcheck (hn ▸ fun h => Option.noConfusion h), fun hlt => absurd hlt h3⟩, ?_⟩
    intro cer hcer
    rw [hcheck] at hcer
    injection hcer with he
    subst he
    have hpair := List.pairwise_cons.mp hsorted
    have hpair1 := List.pairwise_cons.mp hpair.2
    refine ⟨p0, p1, p2, rest, hs, rfl, rfl, rfl, rfl, ?_, ?_, ?_, ?_, ?_, ?_⟩
    · exact hperm.subset (List.mem_cons_self _ _)
    · exact hperm.subset (by simp)
    · exact hperm.subset (by simp)
    · intro q hq
      rcases List.mem_cons.mp (hperm.symm.subset hq) with h | h
      · rw [h]
      · exact hpair.1 q h
    · exact hpair.1 p1 (by simp)
    · exact hpair1.1 p2 (by simp)

/-- C8 witness: with fewer than three non-convergent reports the theorem
yields no record at a concrete input. -/
theorem C8_counterexample_record_witness :
    check_for_counterexample env0 "aW" [ceP2] = none :=
  (C8_counterexample_record env0 "aW" [ceP2]).1.mpr (by decide)
